import Mathlib

/-!
Shallow embedding of the Zero repository (two React views over the
ZeroEntropy document-index SDK): the chatbot's answer-assembly logic
(`formatResponse`, `processQuery`, `handleSubmit` from
`src/components/DocumentChatbot.tsx`) and the upload handler's
collection-creation step (`handleFileUpload` from `src/Zero.tsx`).

JavaScript strings are modelled as Lean `String`, JS numbers used as
relevance scores as `ℚ` (they are only multiplied by 100 and printed with
one decimal), array indices as `Nat`, and absent (`undefined`) values as
`Option`.  Thrown/caught JS errors are modelled with `Except String`.
-/

attribute [local semireducible] Rat.mul Rat.add Rat.sub Rat.inv

namespace Zero

/-- Test that `sub` is a prefix of `l` (character lists). -/
def listPrefixOf : List Char → List Char → Bool
  | [], _ => true
  | _ :: _, [] => false
  | a :: as, b :: bs => a == b && listPrefixOf as bs

/-- Test that `sub` occurs contiguously somewhere in `l` (character lists). -/
def listInfixOf (sub : List Char) : List Char → Bool
  | [] => listPrefixOf sub []
  | c :: cs => listPrefixOf sub (c :: cs) || listInfixOf sub cs

/-- JavaScript `s.includes(sub)`: `sub` occurs as a contiguous substring
of `s`. -/
def jsIncludes (s sub : String) : Bool :=
  listInfixOf sub.toList s.toList

/-- JavaScript `s.toLowerCase()`, character by character (the queries
at issue are ASCII, where this agrees with Unicode lowercasing). -/
def jsToLower (s : String) : String :=
  ⟨s.data.map Char.toLower⟩

/-- JavaScript `s.trim()`: strip leading and trailing whitespace. -/
def jsTrim (s : String) : String :=
  ⟨((s.data.dropWhile Char.isWhitespace).reverse.dropWhile Char.isWhitespace).reverse⟩

/-- A document as returned by `queries.topDocuments`; only `path` is read
by the formatter. -/
structure Document where
  path : String
deriving DecidableEq, Repr

/-- A snippet as returned by `queries.topSnippets`: `content`, source
`path`, relevance `score`, optional inclusive zero-based `page_span`. -/
structure Snippet where
  content : String
  path : String
  score : ℚ
  page_span : Option (Nat × Nat)
deriving DecidableEq, Repr

/-- A page as returned by `queries.topPages`. -/
structure Page where
  path : String
  page_index : Nat
  content : String
deriving DecidableEq, Repr

/-- The record returned by `formatResponse` (and by `processQuery`).
In the empty-input and error branches the TS object literal carries no
`documents`/`pages` fields (they read as `undefined`), modelled as
`none`. -/
structure FormatResult where
  content : String
  snippets : List Snippet
  documents : Option (List Document)
  pages : Option (List Page)
deriving DecidableEq, Repr

/-- JavaScript `Array.from(new Set(l))`: deduplicate keeping the first
occurrence, preserving order.  `seen` accumulates elements already kept. -/
def dedupFirst : List String → List String → List String
  | [], _ => []
  | x :: xs, seen =>
    if x ∈ seen then dedupFirst xs seen
    else x :: dedupFirst xs (x :: seen)

/-- One numbered line `"{i}. **{path}**\n"` per path, numbering from 1
(`uniqueDocs.forEach((path, i) => ...)` with `i + 1`). -/
def listingLines (paths : List String) : String :=
  String.join (paths.enum.map (fun p => toString (p.1 + 1) ++ ". **" ++ p.2 ++ "**\n"))

/-- JavaScript `x.toFixed(1)` for a non-negative rational: round
`x` to one decimal (ties away from zero for non-negative inputs) and
print as `"{integer part}.{one digit}"`. -/
def toFixed1 (q : ℚ) : String :=
  let n : ℤ := round (q * 10)
  toString (n / 10) ++ "." ++ toString (n % 10)

/-- The citation trailer of one snippet block: with `page_span`,
`"*Source: `path` (Pages a+1-b+1, Relevance: score*100 toFixed(1)%)*"`;
without it, the same minus the page range. -/
def snippetCitation (s : Snippet) : String :=
  match s.page_span with
  | some sp =>
      "*Source: `" ++ s.path ++ "` (Pages " ++ toString (sp.1 + 1) ++ "-"
        ++ toString (sp.2 + 1) ++ ", Relevance: " ++ toFixed1 (s.score * 100)
        ++ "%)*\n\n"
  | none =>
      "*Source: `" ++ s.path ++ "` (Relevance: " ++ toFixed1 (s.score * 100)
        ++ "%)*\n\n"

/-- One snippet block: its `content`, a blank line, then the citation. -/
def snippetBlock (s : Snippet) : String :=
  s.content ++ "\n\n" ++ snippetCitation s

/-- One page block:
`"From document `path` (Page page_index+1):\n"` then the content and a
blank line. -/
def pageBlock (p : Page) : String :=
  "From document `" ++ p.path ++ "` (Page " ++ toString (p.page_index + 1)
    ++ "):\n" ++ p.content ++ "\n\n"

/-- The listing-intent test of `formatResponse` (lines 108–109):
the lowercased query contains `"show"` and contains `"document"` or
`"all"`. -/
def listingQuery (query : String) : Bool :=
  jsIncludes (jsToLower query) "show" &&
    (jsIncludes (jsToLower query) "document" || jsIncludes (jsToLower query) "all")

/-- The fixed reply of the all-empty branch. -/
def emptyResult : FormatResult :=
  { content := "I couldn't find any relevant information. Please try rephrasing your question."
    snippets := []
    documents := none
    pages := none }

/-- Function `formatResponse` of `DocumentChatbot.tsx` (lines 87–141): all-empty
check, then listing intent, then non-empty pages, then the snippet
default; the successful branches return the evidence unchanged. -/
def formatResponse (documents : List Document) (snippets : List Snippet)
    (pages : Option (List Page)) (query : String) : FormatResult :=
  if documents.isEmpty && snippets.isEmpty && (pages.getD []).isEmpty then
    emptyResult
  else
    let response : String :=
      if listingQuery query then
        "Here are the available documents:\n\n"
          ++ listingLines (dedupFirst (documents.map (fun d => d.path)) [])
      else if !(pages.getD []).isEmpty then
        "Here are the relevant pages:\n\n"
          ++ String.join ((pages.getD []).map pageBlock)
      else
        "Here's what I found:\n\n" ++ String.join (snippets.map snippetBlock)
    { content := response
      snippets := snippets
      documents := some documents
      pages := pages }

/-- The outcomes the external service would hand the three retrieval calls
of `processQuery` for the submitted query (`queries.topDocuments`,
`queries.topSnippets`, `queries.topPages`): either a result list or a
thrown error, whose payload is modelled as a `String`. -/
structure RetrievalEnv where
  topDocuments : Except String (List Document)
  topSnippets : Except String (List Snippet)
  topPages : Except String (List Page)
deriving Repr

/-- The fixed reply of the `catch` branch of `processQuery`
(lines 78–84). -/
def errorResult : FormatResult :=
  { content := "Sorry, I encountered an error while searching the documentation."
    snippets := []
    documents := none
    pages := none }

/-- The page-query test of `processQuery` (line 64):
`query.toLowerCase().includes('page')`. -/
def pagesRequested (query : String) : Bool :=
  jsIncludes (jsToLower query) "page"

/-- Function `processQuery` of `DocumentChatbot.tsx` (lines 45–85): await
`topDocuments`, then `topSnippets`, then `topPages` only when the query
mentions "page" (otherwise `pages` stays `undefined`); any thrown error is
caught and replaced by `errorResult`. -/
def processQuery (env : RetrievalEnv) (query : String) : FormatResult :=
  match env.topDocuments with
  | .error _ => errorResult
  | .ok docs =>
    match env.topSnippets with
    | .error _ => errorResult
    | .ok snips =>
      if pagesRequested query then
        match env.topPages with
        | .error _ => errorResult
        | .ok pgs => formatResponse docs snips (some pgs) query
      else
        formatResponse docs snips none query

/-- Role of a chat message. -/
inductive Role where
  | user
  | assistant
  | system
deriving DecidableEq, Repr

/-- A chat message (`Message` interface, lines 5–14): `id`, `role`,
rendered `content`, and the optional supporting snippets. -/
structure Message where
  id : String
  role : Role
  content : String
  snippets : Option (List Snippet)
deriving DecidableEq, Repr

/-- The chatbot state touched by `handleSubmit`: the transcript, the
input field and the loading flag. -/
structure ChatState where
  messages : List Message
  input : String
  isLoading : Bool
deriving DecidableEq, Repr

/-- Function `handleSubmit` of `DocumentChatbot.tsx` (lines 143–168) as a state
transition: guard `if (!input.trim() || !client) return;`, else append the
user message, clear the input, run `processQuery` on the submitted input
and append the assistant message carrying the returned `content` and
`snippets`.  `hasClient` models `client` being non-null and `now` models
`Date.now()` (ids are `now.toString()` and `(now + 1).toString()`); the
final loading flag is `false`. -/
def handleSubmit (env : RetrievalEnv) (hasClient : Bool) (now : Nat)
    (st : ChatState) : ChatState :=
  if jsTrim st.input = "" ∨ hasClient = false then st
  else
    let userMessage : Message :=
      { id := toString now, role := .user, content := st.input, snippets := none }
    let r := processQuery env st.input
    let assistantMessage : Message :=
      { id := toString (now + 1), role := .assistant, content := r.content
        snippets := some r.snippets }
    { messages := st.messages ++ [userMessage, assistantMessage]
      input := ""
      isLoading := false }

/-- Outcome of `handleFileUpload` in `Zero.tsx` once it passes its guard:
the user-facing status `message` set at the end, and whether the document
upload loop was reached (`uploadsReached = false` means the collection
creation step aborted the upload). -/
structure UploadOutcome where
  message : String
  uploadsReached : Bool
deriving DecidableEq, Repr

/-- The first error thrown inside the sequential upload loop, if any. -/
def firstUploadError : List (Except String Unit) → Option String
  | [] => none
  | .ok _ :: rest => firstUploadError rest
  | .error e :: _ => some e

/-- Function `handleFileUpload` of `Zero.tsx` (lines 101–173): no-op (`none`) when
no client or no files; otherwise create the collection — a response whose
`error.message` contains "already exists" is logged and ignored, any other
error field or network failure is rethrown into the outer catch — then run
the upload loop.  `createResp` is the `add-collection` outcome:
`.error e` a network/parse failure, `.ok (some msg)` a response with
`error.message = msg`, `.ok none` a plain success; `uploads` are the
outcomes of the `documents.add` calls, in file order.  Every caught error
yields the fixed "Upload failed. Please try again." message. -/
def handleFileUpload (hasClient : Bool) (filesCount : Nat)
    (createResp : Except String (Option String))
    (uploads : List (Except String Unit)) : Option UploadOutcome :=
  if hasClient = false ∨ filesCount = 0 then none
  else some (
    match createResp with
    | .error _ => { message := "Upload failed. Please try again.", uploadsReached := false }
    | .ok errField =>
      match errField with
      | some msg =>
        if jsIncludes msg "already exists" then
          match firstUploadError uploads with
          | some _ => { message := "Upload failed. Please try again.", uploadsReached := true }
          | none => { message := "Files uploaded successfully!", uploadsReached := true }
        else
          { message := "Upload failed. Please try again.", uploadsReached := false }
      | none =>
        match firstUploadError uploads with
        | some _ => { message := "Upload failed. Please try again.", uploadsReached := true }
        | none => { message := "Files uploaded successfully!", uploadsReached := true })

theorem nonempty_cond (docs : List Document) (snips : List Snippet)
    (pgs : Option (List Page))
    (h : docs ≠ [] ∨ snips ≠ [] ∨ pgs.getD [] ≠ []) :
    (docs.isEmpty && snips.isEmpty && (pgs.getD []).isEmpty) = false := by
  rcases h with h | h | h <;> simp [List.isEmpty_iff, h]

theorem formatResponse_listing (docs : List Document) (snips : List Snippet)
    (pgs : Option (List Page)) (q : String)
    (hne : (docs.isEmpty && snips.isEmpty && (pgs.getD []).isEmpty) = false)
    (hl : listingQuery q = true) :
    formatResponse docs snips pgs q =
      { content := "Here are the available documents:\n\n"
          ++ listingLines (dedupFirst (docs.map (fun d => d.path)) [])
        snippets := snips
        documents := some docs
        pages := pgs } := by
  simp [formatResponse, hne, hl]

theorem formatResponse_pages (docs : List Document) (snips : List Snippet)
    (pgs : Option (List Page)) (q : String)
    (hl : listingQuery q = false)
    (hp : (pgs.getD []).isEmpty = false) :
    formatResponse docs snips pgs q =
      { content := "Here are the relevant pages:\n\n"
          ++ String.join ((pgs.getD []).map pageBlock)
        snippets := snips
        documents := some docs
        pages := pgs } := by
  simp [formatResponse, hl, hp]

theorem formatResponse_snippets (docs : List Document) (snips : List Snippet)
    (pgs : Option (List Page)) (q : String)
    (hne : (docs.isEmpty && snips.isEmpty && (pgs.getD []).isEmpty) = false)
    (hl : listingQuery q = false)
    (hp : (pgs.getD []).isEmpty = true) :
    formatResponse docs snips pgs q =
      { content := "Here's what I found:\n\n" ++ String.join (snips.map snippetBlock)
        snippets := snips
        documents := some docs
        pages := pgs } := by
  simp only [formatResponse, hl, hp]
  have hde : ¬(docs.isEmpty && snips.isEmpty && (pgs.getD []).isEmpty) = true := by
    simp [hne]
  simp [formatResponse, hl, hp, hde] at hde ⊢
  intro h1 h2
  exact absurd h2 (hde h1)

theorem formatResponse_empty (pgs : Option (List Page)) (q : String)
    (hp : pgs.getD [] = []) :
    formatResponse [] [] pgs q = emptyResult := by
  simp [formatResponse, hp]

theorem listingQuery_iff (q : String) :
    listingQuery q = true ↔
      (jsIncludes (jsToLower q) "show" = true ∧
        (jsIncludes (jsToLower q) "document" = true ∨ jsIncludes (jsToLower q) "all" = true)) := by
  simp [listingQuery, Bool.and_eq_true, Bool.or_eq_true]

/-- C1: a query whose lowercased form contains "show" and also "document"
or "all" makes the formatter (on any non-empty input) take the listing
branch, rendering the documents' paths deduplicated by path (first
occurrence wins, order preserved) as numbered lines from 1; conversely,
for any other query the formatter takes the page or the snippet branch;
documents `[a, b, a]` yield exactly the lines "1. **a**" and "2. **b**". -/
theorem listing_intent_spec (docs : List Document) (snips : List Snippet)
    (pgs : Option (List Page)) (q : String)
    (hne : docs ≠ [] ∨ snips ≠ [] ∨ pgs.getD [] ≠ []) :
    ((jsIncludes (jsToLower q) "show" = true ∧
        (jsIncludes (jsToLower q) "document" = true ∨ jsIncludes (jsToLower q) "all" = true)) →
      formatResponse docs snips pgs q =
        { content := "Here are the available documents:\n\n"
            ++ listingLines (dedupFirst (docs.map (fun d => d.path)) [])
          snippets := snips
          documents := some docs
          pages := pgs })
    ∧ (¬(jsIncludes (jsToLower q) "show" = true ∧
          (jsIncludes (jsToLower q) "document" = true ∨ jsIncludes (jsToLower q) "all" = true)) →
        formatResponse docs snips pgs q =
          { content := "Here are the relevant pages:\n\n" ++ String.join ((pgs.getD []).map pageBlock)
            snippets := snips
            documents := some docs
            pages := pgs }
        ∨ formatResponse docs snips pgs q =
          { content := "Here's what I found:\n\n" ++ String.join (snips.map snippetBlock)
            snippets := snips
            documents := some docs
            pages := pgs })
    ∧ dedupFirst ["a", "b", "a"] [] = ["a", "b"]
    ∧ listingLines ["a", "b"] = "1. **a**\n2. **b**\n"
    ∧ formatResponse [⟨"a"⟩, ⟨"b"⟩, ⟨"a"⟩] [] none "show all documents" =
        { content := "Here are the available documents:\n\n1. **a**\n2. **b**\n"
          snippets := []
          documents := some [⟨"a"⟩, ⟨"b"⟩, ⟨"a"⟩]
          pages := none } := by
  refine ⟨?_, ?_, by decide, by decide, by decide⟩
  · intro h
    exact formatResponse_listing docs snips pgs q (nonempty_cond docs snips pgs hne)
      ((listingQuery_iff q).mpr h)
  · intro h
    have hl : listingQuery q = false := by
      cases hq : listingQuery q
      · rfl
      · exact absurd ((listingQuery_iff q).mp hq) h
    cases hp : (pgs.getD []).isEmpty
    · exact Or.inl (formatResponse_pages docs snips pgs q hl hp)
    · exact Or.inr (formatResponse_snippets docs snips pgs q
        (nonempty_cond docs snips pgs hne) hl hp)


/-- Witness for C1 at documents `[a]`, no snippets, no pages, query
"show all documents". -/
theorem listing_intent_spec_witness :
    ([⟨"a"⟩] ≠ ([] : List Document) ∨ ([] : List Snippet) ≠ [] ∨ (none : Option (List Page)).getD [] ≠ [])
    ∧ formatResponse [⟨"a"⟩] [] none "show all documents" =
        { content := "Here are the available documents:\n\n"
            ++ listingLines (dedupFirst (([⟨"a"⟩] : List Document).map (fun d => d.path)) [])
          snippets := []
          documents := some [⟨"a"⟩]
          pages := none } :=
  ⟨by decide, (listing_intent_spec [⟨"a"⟩] [] none "show all documents" (by decide)).1 (by decide)⟩

/-- C2: without listing intent, with pages empty or absent and at least
one snippet, the formatter renders each snippet as its content followed by
a citation line, in the given order; with `page_span` the citation is
"*Source: `path` (Pages a+1-b+1, Relevance: score*100 to one decimal%)*",
without it the same minus the page range; the snippet
`{content: "Y", path: "b.pdf", score: 0.842, page_span: [1, 3]}` yields
the citation "*Source: `b.pdf` (Pages 2-4, Relevance: 84.2%)*". -/
theorem snippet_citation_spec (docs : List Document) (snips : List Snippet)
    (pgs : Option (List Page)) (q : String)
    (hl : listingQuery q = false)
    (hp : pgs = none ∨ pgs = some [])
    (hs : snips ≠ []) :
    formatResponse docs snips pgs q =
      { content := "Here's what I found:\n\n" ++ String.join (snips.map snippetBlock)
        snippets := snips
        documents := some docs
        pages := pgs }
    ∧ (∀ s : Snippet, snippetBlock s = s.content ++ "\n\n" ++ snippetCitation s)
    ∧ (∀ s : Snippet, ∀ a b : Nat, s.page_span = some (a, b) →
        snippetCitation s = "*Source: `" ++ s.path ++ "` (Pages " ++ toString (a + 1)
          ++ "-" ++ toString (b + 1) ++ ", Relevance: " ++ toFixed1 (s.score * 100) ++ "%)*\n\n")
    ∧ (∀ s : Snippet, s.page_span = none →
        snippetCitation s = "*Source: `" ++ s.path ++ "` (Relevance: "
          ++ toFixed1 (s.score * 100) ++ "%)*\n\n")
    ∧ snippetBlock { content := "Y", path := "b.pdf", score := 842/1000, page_span := some (1, 3) } =
        "Y\n\n*Source: `b.pdf` (Pages 2-4, Relevance: 84.2%)*\n\n"
    ∧ snippetBlock { content := "Y", path := "b.pdf", score := 842/1000, page_span := none } =
        "Y\n\n*Source: `b.pdf` (Relevance: 84.2%)*\n\n" := by
  have hpe : (pgs.getD []).isEmpty = true := by rcases hp with rfl | rfl <;> rfl
  refine ⟨?_, fun s => rfl, ?_, ?_, by decide, by decide⟩
  · exact formatResponse_snippets docs snips pgs q
      (nonempty_cond docs snips pgs (Or.inr (Or.inl hs))) hl hpe
  · intro s a b hsp
    simp [snippetCitation, hsp]
  · intro s hsp
    simp [snippetCitation, hsp]

/-- Witness for C2 at the single snippet of the claim and query
"what is Y". -/
theorem snippet_citation_spec_witness :
    listingQuery "what is Y" = false
    ∧ ((none : Option (List Page)) = none ∨ (none : Option (List Page)) = some [])
    ∧ ([({ content := "Y", path := "b.pdf", score := 842/1000, page_span := some (1, 3) } : Snippet)] ≠ [])
    ∧ formatResponse [] [{ content := "Y", path := "b.pdf", score := 842/1000, page_span := some (1, 3) }] none "what is Y" =
      { content := "Here's what I found:\n\n"
          ++ String.join ([({ content := "Y", path := "b.pdf", score := 842/1000, page_span := some (1, 3) } : Snippet)].map snippetBlock)
        snippets := [{ content := "Y", path := "b.pdf", score := 842/1000, page_span := some (1, 3) }]
        documents := some []
        pages := none } :=
  ⟨by decide, Or.inl rfl, by decide,
    (snippet_citation_spec [] [{ content := "Y", path := "b.pdf", score := 842/1000, page_span := some (1, 3) }]
      none "what is Y" (by decide) (Or.inl rfl) (by decide)).1⟩

/-- C3: with documents empty, snippets empty and pages empty or absent,
the formatter returns the fixed "couldn't find any relevant information"
message with an empty evidence list, and nothing else. -/
theorem empty_inputs_spec (docs : List Document) (snips : List Snippet)
    (pgs : Option (List Page)) (q : String)
    (hd : docs = []) (hs : snips = []) (hp : pgs = none ∨ pgs = some []) :
    formatResponse docs snips pgs q = emptyResult
    ∧ emptyResult =
      { content := "I couldn't find any relevant information. Please try rephrasing your question."
        snippets := []
        documents := none
        pages := none } := by
  subst hd hs
  refine ⟨?_, rfl⟩
  rcases hp with rfl | rfl
  · exact formatResponse_empty none q rfl
  · exact formatResponse_empty (some []) q rfl

/-- Witness for C3 at all-empty inputs. -/
theorem empty_inputs_spec_witness :
    (([] : List Document) = [] ∧ ([] : List Snippet) = []
      ∧ ((none : Option (List Page)) = none ∨ (none : Option (List Page)) = some []))
    ∧ formatResponse [] [] none "anything" = emptyResult :=
  ⟨⟨rfl, rfl, Or.inl rfl⟩,
    (empty_inputs_spec [] [] none "anything" rfl rfl (Or.inl rfl)).1⟩

/-- C4: without listing intent and with a non-empty pages list, the
formatter renders each page as "From document `path` (Page index+1):"
followed by its content and a blank line, in input order; the single page
`{path: "a.pdf", page_index: 0, content: "X"}` yields
"From document `a.pdf` (Page 1):" followed by "X"; listing intent is
checked before the pages rule. -/
theorem page_branch_spec (docs : List Document) (snips : List Snippet)
    (ps : List Page) (q : String)
    (hl : listingQuery q = false)
    (hp : ps ≠ []) :
    formatResponse docs snips (some ps) q =
      { content := "Here are the relevant pages:\n\n" ++ String.join (ps.map pageBlock)
        snippets := snips
        documents := some docs
        pages := some ps }
    ∧ (∀ p : Page, pageBlock p = "From document `" ++ p.path ++ "` (Page "
        ++ toString (p.page_index + 1) ++ "):\n" ++ p.content ++ "\n\n")
    ∧ formatResponse [] [] (some [{ path := "a.pdf", page_index := 0, content := "X" }]) "tell me" =
      { content := "Here are the relevant pages:\n\nFrom document `a.pdf` (Page 1):\nX\n\n"
        snippets := []
        documents := some []
        pages := some [{ path := "a.pdf", page_index := 0, content := "X" }] }
    ∧ (∀ q' : String, listingQuery q' = true →
        formatResponse docs snips (some ps) q' =
          { content := "Here are the available documents:\n\n"
              ++ listingLines (dedupFirst (docs.map (fun d => d.path)) [])
            snippets := snips
            documents := some docs
            pages := some ps }) := by
  have hpe : ((some ps).getD []).isEmpty = false := by
    simp [List.isEmpty_iff, hp]
  refine ⟨formatResponse_pages docs snips (some ps) q hl hpe, fun p => rfl, by decide, ?_⟩
  intro q' hq
  exact formatResponse_listing docs snips (some ps) q'
    (nonempty_cond docs snips (some ps) (Or.inr (Or.inr (by simpa using hp)))) hq

/-- Witness for C4 at one page and query "tell me". -/
theorem page_branch_spec_witness :
    listingQuery "tell me" = false
    ∧ ([({ path := "a.pdf", page_index := 0, content := "X" } : Page)] ≠ [])
    ∧ formatResponse [] [] (some [{ path := "a.pdf", page_index := 0, content := "X" }]) "tell me" =
      { content := "Here are the relevant pages:\n\n"
          ++ String.join ([({ path := "a.pdf", page_index := 0, content := "X" } : Page)].map pageBlock)
        snippets := []
        documents := some []
        pages := some [{ path := "a.pdf", page_index := 0, content := "X" }] } :=
  ⟨by decide, by decide,
    (page_branch_spec [] [] [{ path := "a.pdf", page_index := 0, content := "X" }] "tell me"
      (by decide) (by decide)).1⟩

/-- C8: the formatter is a pure, deterministic function of its four
inputs: identical inputs give identical outputs. -/
theorem formatResponse_deterministic (docs docs' : List Document)
    (snips snips' : List Snippet) (pgs pgs' : Option (List Page)) (q q' : String)
    (h1 : docs = docs') (h2 : snips = snips') (h3 : pgs = pgs') (h4 : q = q') :
    formatResponse docs snips pgs q = formatResponse docs' snips' pgs' q' := by
  subst h1 h2 h3 h4
  rfl

/-- Witness for C8 at a concrete input. -/
theorem formatResponse_deterministic_witness :
    formatResponse [⟨"a"⟩] [] none "hi" = formatResponse [⟨"a"⟩] [] none "hi" :=
  formatResponse_deterministic [⟨"a"⟩] [⟨"a"⟩] [] [] none none "hi" "hi" rfl rfl rfl rfl

/-- The formatter always returns its snippet evidence unchanged (in the
all-empty branch the input snippet list is itself empty). -/
theorem formatResponse_keeps_snippets (d : List Document) (s : List Snippet)
    (p : Option (List Page)) (q : String) :
    (formatResponse d s p q).snippets = s := by
  cases s with
  | nil =>
    unfold formatResponse
    split
    · rfl
    · rfl
  | cons a as =>
    unfold formatResponse
    split
    · next hcond => simp at hcond
    · rfl

/-- C5: on a successful submission (non-blank input, retrieval calls
succeed) the transcript is extended append-only by the user message and
then the assistant message, whose content and attached snippets are
exactly what the formatter returned for the retrieved evidence; the
formatter returns its snippet evidence unchanged; roles are fixed at
creation. -/
theorem transcript_append_spec (env : RetrievalEnv) (now : Nat) (st : ChatState)
    (docs : List Document) (snips : List Snippet)
    (hd : env.topDocuments = Except.ok docs) (hs : env.topSnippets = Except.ok snips)
    (hin : jsTrim st.input ≠ "") :
    ∃ u a : Message,
      (handleSubmit env true now st).messages = st.messages ++ [u, a]
      ∧ u.role = Role.user ∧ u.content = st.input
      ∧ a.role = Role.assistant
      ∧ a.content = (processQuery env st.input).content
      ∧ a.snippets = some (processQuery env st.input).snippets
      ∧ (pagesRequested st.input = false →
          processQuery env st.input = formatResponse docs snips none st.input)
      ∧ (∀ pgs : List Page, pagesRequested st.input = true → env.topPages = Except.ok pgs →
          processQuery env st.input = formatResponse docs snips (some pgs) st.input)
      ∧ (∀ d2 : List Document, ∀ s2 : List Snippet, ∀ p2 : Option (List Page), ∀ q2 : String,
          (formatResponse d2 s2 p2 q2).snippets = s2) := by
  refine ⟨{ id := toString now, role := Role.user, content := st.input, snippets := none },
    { id := toString (now + 1), role := Role.assistant
      content := (processQuery env st.input).content
      snippets := some (processQuery env st.input).snippets },
    ?_, rfl, rfl, rfl, rfl, rfl, ?_, ?_, formatResponse_keeps_snippets⟩
  · simp [handleSubmit, hin]
  · intro hpr
    simp [processQuery, hd, hs, hpr]
  · intro pgs hpr hpp
    simp [processQuery, hd, hs, hpr, hpp]

/-- Witness for C5 at an all-ok environment and input "hello". -/
theorem transcript_append_spec_witness :
    (RetrievalEnv.mk (Except.ok []) (Except.ok []) (Except.ok [])).topDocuments = Except.ok []
    ∧ (RetrievalEnv.mk (Except.ok []) (Except.ok []) (Except.ok [])).topSnippets = Except.ok []
    ∧ jsTrim (ChatState.mk [] "hello" false).input ≠ ""
    ∧ ∃ u a : Message,
        (handleSubmit (RetrievalEnv.mk (Except.ok []) (Except.ok []) (Except.ok [])) true 7
            (ChatState.mk [] "hello" false)).messages
          = (ChatState.mk [] "hello" false).messages ++ [u, a]
        ∧ u.role = Role.user
        ∧ a.role = Role.assistant :=
  ⟨rfl, rfl, by decide,
    match transcript_append_spec (RetrievalEnv.mk (Except.ok []) (Except.ok []) (Except.ok [])) 7
      (ChatState.mk [] "hello" false) [] [] rfl rfl (by decide) with
    | ⟨u, a, h1, h2, _, h4, _, _, _, _, _⟩ => ⟨u, a, h1, h2, h4⟩⟩

/-- C6: if any issued retrieval call fails (documents, snippets, or — when
requested — pages), `processQuery` returns the fixed
"Sorry, I encountered an error while searching the documentation." with an
empty evidence list, independent of the error payload. -/
theorem retrieval_error_spec (env : RetrievalEnv) (q : String)
    (hfail : (∃ e, env.topDocuments = Except.error e)
      ∨ (∃ e, env.topSnippets = Except.error e)
      ∨ (pagesRequested q = true ∧ ∃ e, env.topPages = Except.error e)) :
    processQuery env q = errorResult
    ∧ errorResult =
      { content := "Sorry, I encountered an error while searching the documentation."
        snippets := []
        documents := none
        pages := none } := by
  refine ⟨?_, rfl⟩
  rcases hfail with ⟨e, he⟩ | ⟨e, he⟩ | ⟨hpr, e, he⟩
  · simp [processQuery, he]
  · cases hd : env.topDocuments with
    | error e2 => simp [processQuery, hd]
    | ok docs => simp [processQuery, hd, he]
  · cases hd : env.topDocuments with
    | error e2 => simp [processQuery, hd]
    | ok docs =>
      cases hsn : env.topSnippets with
      | error e2 => simp [processQuery, hd, hsn]
      | ok snips => simp [processQuery, hd, hsn, hpr, he]

/-- Witness for C6 at a failing `topDocuments` call. -/
theorem retrieval_error_spec_witness :
    ((∃ e, (RetrievalEnv.mk (Except.error "boom") (Except.ok []) (Except.ok [])).topDocuments = Except.error e)
      ∨ (∃ e, (RetrievalEnv.mk (Except.error "boom") (Except.ok []) (Except.ok [])).topSnippets = Except.error e)
      ∨ (pagesRequested "q" = true
        ∧ ∃ e, (RetrievalEnv.mk (Except.error "boom") (Except.ok []) (Except.ok [])).topPages = Except.error e))
    ∧ processQuery (RetrievalEnv.mk (Except.error "boom") (Except.ok []) (Except.ok [])) "q" = errorResult :=
  ⟨Or.inl ⟨"boom", rfl⟩,
    (retrieval_error_spec (RetrievalEnv.mk (Except.error "boom") (Except.ok []) (Except.ok [])) "q"
      (Or.inl ⟨"boom", rfl⟩)).1⟩

/-- C7: the page-level call is issued iff the query contains "page"
case-insensitively; when not issued the result ignores `topPages` entirely
and the formatter receives `none` for pages; when issued, the formatter
receives `some` of the returned pages (and a page failure is observed). -/
theorem page_call_spec (env : RetrievalEnv) (q : String)
    (docs : List Document) (snips : List Snippet)
    (hd : env.topDocuments = Except.ok docs) (hs : env.topSnippets = Except.ok snips) :
    pagesRequested q = jsIncludes (jsToLower q) "page"
    ∧ (pagesRequested q = false →
        processQuery env q = formatResponse docs snips none q
        ∧ ∀ tp : Except String (List Page),
            processQuery (RetrievalEnv.mk env.topDocuments env.topSnippets tp) q
              = processQuery env q)
    ∧ (pagesRequested q = true →
        (∀ pgs : List Page, env.topPages = Except.ok pgs →
          processQuery env q = formatResponse docs snips (some pgs) q)
        ∧ (∀ e : String, env.topPages = Except.error e →
          processQuery env q = errorResult)) := by
  refine ⟨rfl, ?_, ?_⟩
  · intro hpr
    refine ⟨by simp [processQuery, hd, hs, hpr], ?_⟩
    intro tp
    simp [processQuery, hd, hs, hpr]
  · intro hpr
    constructor
    · intro pgs hp
      simp [processQuery, hd, hs, hpr, hp]
    · intro e hp
      simp [processQuery, hd, hs, hpr, hp]

/-- Witness for C7 at an all-ok environment and query "hello". -/
theorem page_call_spec_witness :
    (RetrievalEnv.mk (Except.ok []) (Except.ok []) (Except.ok [])).topDocuments = Except.ok []
    ∧ (RetrievalEnv.mk (Except.ok []) (Except.ok []) (Except.ok [])).topSnippets = Except.ok []
    ∧ pagesRequested "hello" = jsIncludes (jsToLower "hello") "page" :=
  ⟨rfl, rfl,
    (page_call_spec (RetrievalEnv.mk (Except.ok []) (Except.ok []) (Except.ok [])) "hello" [] [] rfl rfl).1⟩

/-- C9: during upload, a collection-creation response whose error message
contains "already exists" is treated exactly like a success and the upload
loop runs; any other creation error (error field or network failure)
aborts the upload with the fixed "Upload failed. Please try again."
message, never the raw error. -/
theorem collection_exists_spec (filesCount : Nat) (msg : String)
    (uploads : List (Except String Unit))
    (hf : filesCount ≠ 0) :
    (jsIncludes msg "already exists" = true →
      handleFileUpload true filesCount (Except.ok (some msg)) uploads
        = handleFileUpload true filesCount (Except.ok none) uploads
      ∧ ∃ o : UploadOutcome,
          handleFileUpload true filesCount (Except.ok (some msg)) uploads = some o
          ∧ o.uploadsReached = true)
    ∧ (jsIncludes msg "already exists" = false →
      handleFileUpload true filesCount (Except.ok (some msg)) uploads
        = some { message := "Upload failed. Please try again.", uploadsReached := false })
    ∧ (∀ e : String, handleFileUpload true filesCount (Except.error e) uploads
        = some { message := "Upload failed. Please try again.", uploadsReached := false }) := by
  refine ⟨?_, ?_, ?_⟩
  · intro h
    refine ⟨by simp [handleFileUpload, hf, h], ?_⟩
    cases hu : firstUploadError uploads with
    | none =>
      exact ⟨{ message := "Files uploaded successfully!", uploadsReached := true },
        by simp [handleFileUpload, hf, h, hu], rfl⟩
    | some e =>
      exact ⟨{ message := "Upload failed. Please try again.", uploadsReached := true },
        by simp [handleFileUpload, hf, h, hu], rfl⟩
  · intro h
    simp [handleFileUpload, hf, h]
  · intro e
    simp [handleFileUpload, hf]

/-- Witness for C9 at one file and an "already exists" response. -/
theorem collection_exists_spec_witness :
    (1 : Nat) ≠ 0
    ∧ (jsIncludes "Collection already exists." "already exists" = true →
        handleFileUpload true 1 (Except.ok (some "Collection already exists.")) [Except.ok ()]
          = handleFileUpload true 1 (Except.ok none) [Except.ok ()]) :=
  ⟨by decide, fun h =>
    ((collection_exists_spec 1 "Collection already exists." [Except.ok ()] (by decide)).1 h).1⟩

/-- C10: with blank (empty or whitespace-only) input or no client, the
submit handler is a no-op: state (messages, input, loading flag) is
unchanged and no retrieval environment is consulted. -/
theorem submit_noop_spec (env : RetrievalEnv) (hasClient : Bool) (now : Nat) (st : ChatState)
    (h : jsTrim st.input = "" ∨ hasClient = false) :
    handleSubmit env hasClient now st = st
    ∧ (∀ env' : RetrievalEnv, ∀ now' : Nat, handleSubmit env' hasClient now' st = st)
    ∧ (handleSubmit env hasClient now st).messages = st.messages
    ∧ (handleSubmit env hasClient now st).input = st.input
    ∧ (handleSubmit env hasClient now st).isLoading = st.isLoading := by
  have key : ∀ env' : RetrievalEnv, ∀ now' : Nat, handleSubmit env' hasClient now' st = st := by
    intro env' now'
    simp [handleSubmit, h]
  exact ⟨key env now, key, by rw [key env now], by rw [key env now], by rw [key env now]⟩

/-- Witness for C10 at whitespace-only input. -/
theorem submit_noop_spec_witness :
    (jsTrim (ChatState.mk [] "   " false).input = "" ∨ (true : Bool) = false)
    ∧ handleSubmit (RetrievalEnv.mk (Except.ok []) (Except.ok []) (Except.ok [])) true 7
        (ChatState.mk [] "   " false) = ChatState.mk [] "   " false :=
  ⟨Or.inl (by decide),
    (submit_noop_spec (RetrievalEnv.mk (Except.ok []) (Except.ok []) (Except.ok [])) true 7
      (ChatState.mk [] "   " false) (Or.inl (by decide))).1⟩

end Zero
